import Mathlib

/-!
Shallow embedding of `src/app.py` (digicare-analyze): a Streamlit pipeline that
fetches a PDF from a URL, extracts its text, and analyzes it with a remote
generation API, retrying transient errors and degrading to a deterministic
fallback.

Modelling conventions:
  - The remote generation call (`model.generate_content` + `.text`) is an
    oracle `Nat → String → ApiOutcome`: outcome of the i-th call on the sent
    prompt.  Per the source's `except exceptions.GoogleAPIError` clause, a
    failing call raises a provider-classified API error.
  - The HTTP GET is modelled by its response (status code and body bytes);
    the PDF parse (`PyPDFLoader(...).load()`) is an oracle `ParseOutcome`
    standing for the third-party loader's behaviour on the written bytes.
  - Python functions that can let an exception escape return a `PyResult`;
    Python's implicit `None` return and `Optional` values are `Option`.
  - Side effects relevant to the specification (remote call count, sleeps,
    temp-file creation/deletion, displayed messages) are recorded in trace
    structures.
-/

/-- `MAX_RETRIES = 3` from `src/app.py`. -/
def MAX_RETRIES : Nat := 3

/-- `RETRY_DELAY = 2` seconds from `src/app.py`. -/
def RETRY_DELAY : Nat := 2

/-- Python whitespace characters recognised by `str.split()` (ASCII range). -/
def isPyWhitespace (c : Char) : Bool :=
  c = ' ' || c = '\t' || c = '\n' || c = '\x0d' || c = '\x0b' || c = '\x0c'

/-- Helper for `pySplit`: scan the characters, accumulating the current
(reversed) word; whitespace ends a word, and empty fragments are dropped. -/
def pySplitAux : List Char → List Char → List String
  | [], acc => if acc = [] then [] else [String.mk acc.reverse]
  | c :: cs, acc =>
    if isPyWhitespace c then
      if acc = [] then pySplitAux cs [] else String.mk acc.reverse :: pySplitAux cs []
    else
      pySplitAux cs (c :: acc)

/-- Python's `content.split()` with no separator: split on whitespace runs,
discarding empty fragments. -/
def pySplit (s : String) : List String :=
  pySplitAux s.data []

/-- The invariant part of the text-fallback f-string before the interpolated
`word_count` (from `fallback_analysis`, `src/app.py` lines 57-60). -/
def fallbackTextPrefix : String :=
  "\n        Fallback Analysis:\n        1. Document Type: Text-based medical report\n        2. Word Count: Approximately "

/-- The invariant part of the text-fallback f-string after the interpolated
`word_count` (from `fallback_analysis`, `src/app.py` lines 60-64). -/
def fallbackTextSuffix : String :=
  " words\n        3. Content: The document appears to contain medical information, but detailed analysis is unavailable due to technical issues.\n        4. Recommendation: Please review the document manually or consult with a healthcare professional for accurate interpretation.\n        5. Note: This is a simplified analysis due to temporary unavailability of the AI service. For a comprehensive analysis, please try again later.\n        "

/-- The fixed apology string returned by `fallback_analysis` for images
(`src/app.py` line 54). -/
def fallbackImageApology : String :=
  "Unable to analyze the image due to API issues. Please try again later or consult a medical professional for accurate interpretation."

/-- `fallback_analysis(content, content_type)` from `src/app.py` lines 51-64:
apology string when `content_type == "image"`, otherwise the templated
word-count summary (`word_count = len(content.split())`). -/
def fallback_analysis (content content_type : String) : String :=
  if content_type = "image" then
    fallbackImageApology
  else
    fallbackTextPrefix ++ toString (pySplit content).length ++ fallbackTextSuffix

/-- Outcome of one remote generation call, as classified by the source's
`except exceptions.GoogleAPIError` clause: either the response text, or a
provider-classified (transient) API error. -/
inductive ApiOutcome where
  | ok (text : String)
  | apiError (msg : String)
deriving Repr, DecidableEq

/-- The fixed instructional prompt of `analyze_medical_report`
(`src/app.py` lines 27-37). -/
def promptText : String :=
  "You are an AI medical assistant that answers queries based on the given context and relevant medical knowledge. \n    Here are some guidelines:\n    - Prioritize information from the provided documents but supplement with general medical knowledge when necessary.\n    - Ensure accuracy, citing sources from the document where applicable.\n    - Provide confidence scoring based on probability and reasoning.\n    - Be concise, informative, and avoid speculation.\n    YOU WILL ANALYSE ONLY MEDICAL DATA, if other CONTEXT is PASSED you will say \"Provide Relevant Medical Data. Thanks\"\n    Answer:\n    - **Response:** \n    - **Reasoning:** (explain why this answer is correct and any potential limitations)\n"

/-- Execution trace of `analyze_medical_report`: the returned value
(`none` is Python's implicit `None` should the loop fall through), the number
of remote calls issued, the sequence of `time.sleep` delays performed, and how
many times `fallback_analysis` was invoked. -/
structure AnalyzeTrace where
  result : Option String
  remoteCalls : Nat
  sleeps : List Nat
  fallbackCalls : Nat
deriving Repr, DecidableEq

/-- The body of `for attempt in range(MAX_RETRIES)` in `analyze_medical_report`
(`src/app.py` lines 39-49), iterating over the remaining attempt indices.
On success return `response.text`; on a `GoogleAPIError`, if
`attempt < MAX_RETRIES - 1` sleep `RETRY_DELAY` and continue, else return
`fallback_analysis(content, content_type)`.  An exhausted loop falls off the
function, returning Python's implicit `None`. -/
def analyzeLoop (oracle : Nat → String → ApiOutcome) (content content_type : String) :
    List Nat → AnalyzeTrace
  | [] => ⟨none, 0, [], 0⟩
  | attempt :: rest =>
    match oracle attempt (promptText ++ "\n\n" ++ content) with
    | .ok text => ⟨some text, 1, [], 0⟩
    | .apiError _ =>
      if attempt < MAX_RETRIES - 1 then
        let tr := analyzeLoop oracle content content_type rest
        ⟨tr.result, tr.remoteCalls + 1, RETRY_DELAY :: tr.sleeps, tr.fallbackCalls⟩
      else
        ⟨some (fallback_analysis content content_type), 1, [], 1⟩

/-- `analyze_medical_report(content, content_type)` from `src/app.py`
lines 26-49, parameterised by the remote-call oracle. -/
def analyze_medical_report (oracle : Nat → String → ApiOutcome)
    (content content_type : String) : AnalyzeTrace :=
  analyzeLoop oracle content content_type (List.range MAX_RETRIES)

/-- An HTTP response as used by `extract_text_from_pdf`: `requests.get`
yields a status code and body bytes. -/
structure HttpResponse where
  status_code : Nat
  content : List Nat
deriving Repr, DecidableEq

/-- Behaviour of `PyPDFLoader(tmp_file_path).load()` on the written bytes:
either a list of page documents (each modelled by its `page_content` string),
or a raised exception (corrupt PDF, unsupported encoding, ...). -/
inductive ParseOutcome where
  | ok (docs : List String)
  | raise (msg : String)
deriving Repr, DecidableEq

/-- A Python call result: normal return, or an exception propagating to the
caller. -/
inductive PyResult (α : Type) where
  | ret (a : α)
  | exn (msg : String)
deriving Repr, DecidableEq

/-- Execution trace of `extract_text_from_pdf`: its result (`PyResult` of the
returned `Optional[str]`), whether the download-failure `st.error` was shown,
and whether the temporary PDF file was created and whether it was deleted
(`os.unlink`) by the time control leaves the function. -/
structure ExtractTrace where
  result : PyResult (Option String)
  errorShown : Bool
  tempCreated : Bool
  tempDeleted : Bool
deriving Repr, DecidableEq

/-- `extract_text_from_pdf(pdf_url)` from `src/app.py` lines 66-88, given the
GET response for the URL and the loader's behaviour on the downloaded bytes.
If `response.status_code != 200`: `st.error` and return `None`.  Otherwise the
bytes are written to a `NamedTemporaryFile(delete=False)`; `loader.load()`
runs, and only after it returns is the file `os.unlink`ed — a raised parse
exception propagates with the file still on disk.  `if docs and
isinstance(docs, list)` then return `"\n".join(page_content for doc in docs)`,
else return `None`. -/
def extract_text_from_pdf (response : HttpResponse) (load : ParseOutcome) :
    ExtractTrace :=
  if response.status_code ≠ 200 then
    ⟨.ret none, true, false, false⟩
  else
    match load with
    | .raise msg => ⟨.exn msg, false, true, false⟩
    | .ok docs =>
      if docs ≠ [] then
        ⟨.ret (some (String.intercalate "\n" docs)), false, true, true⟩
      else
        ⟨.ret none, false, true, true⟩

/-- What `main`'s triggered branch displays: the analysis results block, the
"Failed to extract text from the PDF." error, or an uncaught exception page. -/
inductive Display where
  | results (analysis : Option String)
  | extractionFailed
  | exnPage (msg : String)
deriving Repr, DecidableEq

/-- Trace of one triggered pipeline run: what is displayed, and whether
`analyze_medical_report` was invoked. -/
structure MainTrace where
  shown : Display
  analyzerCalled : Bool
deriving Repr, DecidableEq

/-- Python truthiness of an `Optional[str]`: `None` and `""` are falsy. -/
def pyTruthy : Option String → Bool
  | none => false
  | some s => !(s = "")

/-- The body of `main`'s analyze branch (`src/app.py` lines 103-111):
`pdf_text = extract_text_from_pdf(pdf_url)`; `if pdf_text:` run
`analyze_medical_report(pdf_text, "text")` and display the analysis, else
display the extraction-failure error.  An exception from extraction
propagates. -/
def runPipeline (response : HttpResponse) (load : ParseOutcome)
    (oracle : Nat → String → ApiOutcome) : MainTrace :=
  let ex := extract_text_from_pdf response load
  match ex.result with
  | .exn msg => ⟨.exnPage msg, false⟩
  | .ret pdf_text =>
    if pyTruthy pdf_text then
      ⟨.results (analyze_medical_report oracle (pdf_text.getD "") "text").result, true⟩
    else
      ⟨.extractionFailed, false⟩

/-- Outcome of the module-level startup code (`src/app.py` lines 15-21):
`st.secrets["GEMINI_API_KEY"]` raises if the secret is absent (script halts on
the exception); `if not api_key: st.error(...); st.stop()` halts on an empty
key; otherwise `genai.configure(api_key=api_key)` runs and the app proceeds. -/
inductive StartupOutcome where
  | haltedSecretError
  | haltedConfigError
  | configured (key : String)
deriving Repr, DecidableEq

/-- The startup sequence of `src/app.py` lines 15-21, given the value of the
`GEMINI_API_KEY` secret (`none` when the secret is not set). -/
def startup (gemini_secret : Option String) : StartupOutcome :=
  match gemini_secret with
  | none => .haltedSecretError
  | some api_key =>
    if api_key = "" then .haltedConfigError else .configured api_key

/-- Claim C6: for every content string, the fallback for content-kind "text"
returns the templated multi-line summary embedding the word count of the
content computed by whitespace splitting; in particular for content
"one two three four" the reported word count is 4. -/
theorem fallback_text_reports_word_count :
    (∀ content : String, fallback_analysis content "text" =
      fallbackTextPrefix ++ toString (pySplit content).length ++ fallbackTextSuffix) ∧
    (pySplit "one two three four").length = 4 ∧
    fallback_analysis "one two three four" "text" =
      fallbackTextPrefix ++ "4" ++ fallbackTextSuffix := by
  have hlen : (pySplit "one two three four").length = 4 := by decide
  refine ⟨fun content => ?_, hlen, ?_⟩
  · simp [fallback_analysis]
  · simp [fallback_analysis, hlen]
    rfl

/-- Claim C10: for every content-kind tag other than exactly "image",
`fallback_analysis` takes the text branch and returns the word-count summary;
the fixed apology string is returned exactly when the tag is "image", and then
verbatim regardless of the content. -/
theorem fallback_apology_only_for_image (content content_type : String) :
    (content_type ≠ "image" → fallback_analysis content content_type =
      fallbackTextPrefix ++ toString (pySplit content).length ++ fallbackTextSuffix) ∧
    fallback_analysis content "image" = fallbackImageApology := by
  constructor
  · intro h
    simp [fallback_analysis, h]
  · simp [fallback_analysis]

/-- Witness for `fallback_apology_only_for_image` at the non-"image" tag
"pdf" and at "image". -/
theorem fallback_apology_only_for_image_witness :
    fallback_analysis "scan data" "pdf" =
      fallbackTextPrefix ++ toString (pySplit "scan data").length ++ fallbackTextSuffix ∧
    fallback_analysis "scan data" "image" = fallbackImageApology :=
  ⟨(fallback_apology_only_for_image "scan data" "pdf").1 (by decide),
   (fallback_apology_only_for_image "scan data" "image").2⟩

/-- Claim C1: if every remote generation attempt raises a provider-classified
API error, `analyze_medical_report` makes exactly `MAX_RETRIES = 3` remote
calls, sleeps the fixed `RETRY_DELAY = 2` seconds between consecutive
attempts (two sleeps), invokes `fallback_analysis` exactly once, and returns
its result; there is no 4th remote call. -/
theorem analyze_three_failures_uses_fallback (oracle : Nat → String → ApiOutcome)
    (content content_type : String)
    (h : ∀ i, i < MAX_RETRIES →
      ∃ e, oracle i (promptText ++ "\n\n" ++ content) = .apiError e) :
    analyze_medical_report oracle content content_type =
      ⟨some (fallback_analysis content content_type), MAX_RETRIES,
        [RETRY_DELAY, RETRY_DELAY], 1⟩ := by
  obtain ⟨e0, h0⟩ := h 0 (by norm_num [MAX_RETRIES])
  obtain ⟨e1, h1⟩ := h 1 (by norm_num [MAX_RETRIES])
  obtain ⟨e2, h2⟩ := h 2 (by norm_num [MAX_RETRIES])
  have hr : List.range MAX_RETRIES = [0, 1, 2] := rfl
  simp [analyze_medical_report, hr, analyzeLoop, h0, h1, h2, MAX_RETRIES, RETRY_DELAY]

/-- Witness for `analyze_three_failures_uses_fallback`: a remote endpoint that
always raises. -/
theorem analyze_three_failures_uses_fallback_witness :
    analyze_medical_report (fun _ _ => .apiError "503") "lab report" "text" =
      ⟨some (fallback_analysis "lab report" "text"), MAX_RETRIES,
        [RETRY_DELAY, RETRY_DELAY], 1⟩ :=
  analyze_three_failures_uses_fallback (fun _ _ => .apiError "503") "lab report" "text"
    (fun _ _ => ⟨"503", rfl⟩)

/-- Claim C2: for every oracle, content and content-kind,
`analyze_medical_report` terminates returning a string (never Python's
implicit `None`): the string is either some remote response text or the
result of `fallback_analysis`; no error escapes. -/
theorem analyze_always_returns_string (oracle : Nat → String → ApiOutcome)
    (content content_type : String) :
    ∃ s, (analyze_medical_report oracle content content_type).result = some s ∧
      ((∃ i, i < MAX_RETRIES ∧ oracle i (promptText ++ "\n\n" ++ content) = .ok s) ∨
        s = fallback_analysis content content_type) := by
  have hr : List.range MAX_RETRIES = [0, 1, 2] := rfl
  unfold analyze_medical_report
  rw [hr]
  cases h0 : oracle 0 (promptText ++ "\n\n" ++ content) with
  | ok t0 =>
    exact ⟨t0, by simp [analyzeLoop, h0],
      Or.inl ⟨0, by norm_num [MAX_RETRIES], h0⟩⟩
  | apiError e0 =>
    cases h1 : oracle 1 (promptText ++ "\n\n" ++ content) with
    | ok t1 =>
      refine ⟨t1, ?_, Or.inl ⟨1, by norm_num [MAX_RETRIES], h1⟩⟩
      simp [analyzeLoop, h0, h1, MAX_RETRIES]
    | apiError e1 =>
      cases h2 : oracle 2 (promptText ++ "\n\n" ++ content) with
      | ok t2 =>
        refine ⟨t2, ?_, Or.inl ⟨2, by norm_num [MAX_RETRIES], h2⟩⟩
        simp [analyzeLoop, h0, h1, h2, MAX_RETRIES]
      | apiError e2 =>
        refine ⟨fallback_analysis content content_type, ?_, Or.inr rfl⟩
        simp [analyzeLoop, h0, h1, h2, MAX_RETRIES]

/-- Counterexample to claim C3: when the downloaded bytes are written to the
temporary file but the PDF parse raises, `extract_text_from_pdf` propagates
the exception and the temporary file is NOT deleted
(`NamedTemporaryFile(delete=False)` with `os.unlink` only after a successful
`loader.load()`). -/
theorem tempfile_not_deleted_on_parse_failure :
    (extract_text_from_pdf ⟨200, [37, 80, 68, 70]⟩ (.raise "corrupt PDF")).tempCreated
        = true ∧
    (extract_text_from_pdf ⟨200, [37, 80, 68, 70]⟩ (.raise "corrupt PDF")).tempDeleted
        = false := by
  decide

/-- Amended claim C3: the temporary file is deleted before
`extract_text_from_pdf` returns on every path where the parse completes
without raising (whether or not any text is recovered); on a raised parse
exception the file is left behind. -/
theorem tempfile_deleted_when_parse_returns (response : HttpResponse)
    (docs : List String) (h : response.status_code = 200) :
    (extract_text_from_pdf response (.ok docs)).tempCreated = true ∧
    (extract_text_from_pdf response (.ok docs)).tempDeleted = true := by
  rcases docs with _ | ⟨d, ds⟩ <;> simp [extract_text_from_pdf, h]

/-- Witness for `tempfile_deleted_when_parse_returns`. -/
theorem tempfile_deleted_when_parse_returns_witness :
    (extract_text_from_pdf ⟨200, [37]⟩ (.ok ["Patient stable"])).tempCreated = true ∧
    (extract_text_from_pdf ⟨200, [37]⟩ (.ok ["Patient stable"])).tempDeleted = true :=
  tempfile_deleted_when_parse_returns ⟨200, [37]⟩ ["Patient stable"] rfl

/-- Claim C4: for every response with a non-2xx status, the Fetcher reports an
error and `extract_text_from_pdf` returns `None`, and the triggered pipeline
shows the extraction-failure error without ever invoking
`analyze_medical_report`. -/
theorem non2xx_fetch_aborts_pipeline (response : HttpResponse) (load : ParseOutcome)
    (oracle : Nat → String → ApiOutcome)
    (h : ¬ (200 ≤ response.status_code ∧ response.status_code ≤ 299)) :
    (extract_text_from_pdf response load).result = .ret none ∧
    (extract_text_from_pdf response load).errorShown = true ∧
    (runPipeline response load oracle).analyzerCalled = false ∧
    (runPipeline response load oracle).shown = .extractionFailed := by
  have hne : response.status_code ≠ 200 := by omega
  simp [extract_text_from_pdf, runPipeline, pyTruthy, hne]

/-- Witness for `non2xx_fetch_aborts_pipeline` at status 404. -/
theorem non2xx_fetch_aborts_pipeline_witness :
    (extract_text_from_pdf ⟨404, []⟩ (.ok ["x"])).result = .ret none ∧
    (extract_text_from_pdf ⟨404, []⟩ (.ok ["x"])).errorShown = true ∧
    (runPipeline ⟨404, []⟩ (.ok ["x"]) (fun _ _ => .ok "a")).analyzerCalled = false ∧
    (runPipeline ⟨404, []⟩ (.ok ["x"]) (fun _ _ => .ok "a")).shown = .extractionFailed :=
  non2xx_fetch_aborts_pipeline ⟨404, []⟩ (.ok ["x"]) (fun _ _ => .ok "a") (by decide)

/-- Claim C5: for every non-empty list of parsed pages (successful download),
the Extractor returns the page texts joined in document order by a single
newline. -/
theorem extract_joins_pages_with_newline (response : HttpResponse)
    (docs : List String) (hs : response.status_code = 200) (hne : docs ≠ []) :
    (extract_text_from_pdf response (.ok docs)).result =
      .ret (some (String.intercalate "\n" docs)) := by
  simp [extract_text_from_pdf, hs, hne]

/-- Witness for `extract_joins_pages_with_newline`: pages ["A", "B"] give
"A\nB", and the single page "Patient stable" gives exactly "Patient stable"
with no leading or trailing separator. -/
theorem extract_joins_pages_with_newline_witness :
    (extract_text_from_pdf ⟨200, [37]⟩ (.ok ["A", "B"])).result = .ret (some "A\nB") ∧
    (extract_text_from_pdf ⟨200, [37]⟩ (.ok ["Patient stable"])).result =
      .ret (some "Patient stable") := by
  constructor
  · rw [extract_joins_pages_with_newline ⟨200, [37]⟩ ["A", "B"] rfl (by decide)]
    rfl
  · rw [extract_joins_pages_with_newline ⟨200, [37]⟩ ["Patient stable"] rfl (by decide)]
    rfl

/-- Claim C8: the Fetcher treats only HTTP status exactly 200 as success: for
every other status (including 201 and 204) `extract_text_from_pdf` returns
`None` without attempting extraction (no temporary file is even created). -/
theorem only_status_200_is_success (response : HttpResponse) (load : ParseOutcome)
    (h : response.status_code ≠ 200) :
    (extract_text_from_pdf response load).result = .ret none ∧
    (extract_text_from_pdf response load).tempCreated = false := by
  simp [extract_text_from_pdf, h]

/-- Witness for `only_status_200_is_success` at the 2xx statuses 201 and
204. -/
theorem only_status_200_is_success_witness :
    ((extract_text_from_pdf ⟨201, []⟩ (.ok ["created"])).result = .ret none ∧
      (extract_text_from_pdf ⟨201, []⟩ (.ok ["created"])).tempCreated = false) ∧
    ((extract_text_from_pdf ⟨204, []⟩ (.raise "no body")).result = .ret none ∧
      (extract_text_from_pdf ⟨204, []⟩ (.raise "no body")).tempCreated = false) :=
  ⟨only_status_200_is_success ⟨201, []⟩ (.ok ["created"]) (by decide),
   only_status_200_is_success ⟨204, []⟩ (.raise "no body") (by decide)⟩

/-- Claim C9: if extraction returns a non-absent but empty string, the
Presenter treats it exactly like an absent result: the `if pdf_text:` guard is
falsy, so the extraction-failure error is shown and `analyze_medical_report`
is never invoked. -/
theorem empty_extracted_text_treated_as_absent (response : HttpResponse)
    (load : ParseOutcome) (oracle : Nat → String → ApiOutcome)
    (h : (extract_text_from_pdf response load).result = .ret (some "")) :
    (runPipeline response load oracle).shown = .extractionFailed ∧
    (runPipeline response load oracle).analyzerCalled = false := by
  simp [runPipeline, h, pyTruthy]

/-- Witness for `empty_extracted_text_treated_as_absent`: a single page whose
text is empty makes extraction return `some ""`, and the pipeline then shows
the error without calling the analyzer. -/
theorem empty_extracted_text_treated_as_absent_witness :
    (extract_text_from_pdf ⟨200, [37]⟩ (.ok [""])).result = .ret (some "") ∧
    (runPipeline ⟨200, [37]⟩ (.ok [""]) (fun _ _ => .ok "a")).shown
        = .extractionFailed ∧
    (runPipeline ⟨200, [37]⟩ (.ok [""]) (fun _ _ => .ok "a")).analyzerCalled
        = false := by
  have h : (extract_text_from_pdf ⟨200, [37]⟩ (.ok [""])).result = .ret (some "") := by
    decide
  exact ⟨h, (empty_extracted_text_treated_as_absent ⟨200, [37]⟩ (.ok [""])
      (fun _ _ => .ok "a") h).1,
    (empty_extracted_text_treated_as_absent ⟨200, [37]⟩ (.ok [""])
      (fun _ _ => .ok "a") h).2⟩

/-- Claim C7: if the `GEMINI_API_KEY` credential is absent (secret not set, or
set to the empty string), startup halts with an error before the model is
configured — the outcome is one of the two halt states, never
`configured`. -/
theorem missing_api_key_halts_startup (gemini_secret : Option String)
    (h : gemini_secret = none ∨ gemini_secret = some "") :
    startup gemini_secret = .haltedSecretError ∨
    startup gemini_secret = .haltedConfigError := by
  rcases h with h | h <;> subst h <;> simp [startup]

/-- Witness for `missing_api_key_halts_startup` with the secret unset. -/
theorem missing_api_key_halts_startup_witness :
    startup none = .haltedSecretError ∨ startup none = .haltedConfigError :=
  missing_api_key_halts_startup none (Or.inl rfl)
